import Mathlib

/-!
Verification of the pipeline orchestrator `setup_plugin_pipeline.py`.

The development shallowly embeds the parts of the program the claims talk
about:

* `PrePushHook` — the auto-fix convergence loop from the `PRE_PUSH_HOOK`
  template (`run_linting`, `commit_auto_fixes`, the `main` while-loop), the
  per-category lint adapters `lint_python` and `lint_rust` as step-trace
  producers, and the aggregation of category results.
* `Setup` — the `PipelineSetup` class: `PipelineStatus.is_valid`,
  `detect_project_type`, `validate`, `_get_hooks_dir`, `_hook_is_valid`,
  `fix` and its helpers, and the CLI `main` exit-code computation.

External effects (subprocess results, filesystem reads) are modelled as
explicit environment data; every Lean definition mirrors one Python
function of the source.
-/

namespace PrePushHook

/-- Result of one lint adapter invocation: the `(success, files_changed)`
pair every `lint_*` function of the `PRE_PUSH_HOOK` template returns. -/
structure CategoryResult where
  success : Bool
  filesChanged : Bool
deriving DecidableEq, Repr

/-- What happened for one detected language inside `run_linting`:
either `ensure_linter_installed` returned `False` (the `continue` branch,
`toolMissing`) or the language-specific `lint_*` adapter ran and returned
a `CategoryResult`. -/
inductive CategoryRun
  | toolMissing
  | ran (r : CategoryResult)
deriving DecidableEq, Repr

/-- Loop body of `run_linting`: `toolMissing` hits `continue` and leaves the
accumulator untouched; a run result is folded with
`if not passed: all_passed = False` and `if changed: files_changed = True`. -/
def lintStep (acc : Bool × Bool) (c : CategoryRun) : Bool × Bool :=
  match c with
  | CategoryRun.toolMissing => acc
  | CategoryRun.ran r => (acc.1 && r.success, acc.2 || r.filesChanged)

/-- The function `run_linting` of the `PRE_PUSH_HOOK` template, folding the
per-language outcomes starting from `all_passed = True`,
`files_changed = False`; it returns `(all_passed, files_changed)`. -/
def run_linting (cats : List CategoryRun) : Bool × Bool :=
  cats.foldl lintStep (true, false)

/-- The three-way branch the hook `main` takes after `run_linting` in a
single iteration. -/
inductive IterationDecision
  | commitAndRestart
  | blocked
  | validatePlugins
deriving DecidableEq, Repr

/-- Decision logic of one iteration of the hook `main` (steps 2 and 3):
`files_changed` leads to commit-and-restart, otherwise a failed lint blocks,
otherwise plugin validation runs. -/
def iterationDecision (lintPassed filesChanged : Bool) : IterationDecision :=
  if filesChanged then IterationDecision.commitAndRestart
  else if !lintPassed then IterationDecision.blocked
  else IterationDecision.validatePlugins

/-- Environment of one loop iteration: the aggregated `run_linting` result,
the outcomes of the git calls made by `commit_auto_fixes`, and the failing
plugin names reported by `run_validation_cycle`. -/
structure IterEnv where
  lintPassed : Bool
  filesChanged : Bool
  addOk : Bool
  stagedNonempty : Bool
  commitOk : Bool
  failingPlugins : List String
deriving Repr

/-- The function `commit_auto_fixes`: `git add -u` failing returns failure;
an empty staged diff returns success without creating a commit; otherwise
`git commit --no-verify` is attempted. The pair is
`(returned_ok, commit_created)`. -/
def commit_auto_fixes (e : IterEnv) : Bool × Bool :=
  if !e.addOk then (false, false)
  else if !e.stagedNonempty then (true, false)
  else if e.commitOk then (true, true)
  else (false, false)

/-- Terminal outcome of the hook `main` loop. `commitFailed` is the
`return 1` taken when `commit_auto_fixes` reports failure. -/
inductive LoopOutcome
  | success
  | blockedUnfixableLint
  | blockedStructural (names : List String)
  | exhausted
  | commitFailed
deriving DecidableEq, Repr

/-- The iteration bound of the hook template. -/
def MAX_FIX_ITERATIONS : Nat := 5

/-- The `while iteration < MAX_FIX_ITERATIONS` loop of the hook `main`,
written with the remaining iteration budget as structural fuel
(`remaining = MAX_FIX_ITERATIONS - iteration`).  Returns the outcome, the
number of rounds executed, and the number of commits created. -/
def loopFrom (env : Nat → IterEnv) : Nat → Nat → Nat → LoopOutcome × Nat × Nat
  | 0, iteration, commits => (LoopOutcome.exhausted, iteration, commits)
  | rem + 1, iteration, commits =>
    let i := iteration + 1
    let e := env i
    if e.filesChanged then
      match commit_auto_fixes e with
      | (false, _) => (LoopOutcome.commitFailed, i, commits)
      | (true, created) =>
          loopFrom env rem i (commits + (if created then 1 else 0))
    else if !e.lintPassed then (LoopOutcome.blockedUnfixableLint, i, commits)
    else if e.failingPlugins.isEmpty then (LoopOutcome.success, i, commits)
    else (LoopOutcome.blockedStructural e.failingPlugins, i, commits)

/-- The hook `main` auto-fix loop, started at `iteration = 0` with no
commits created yet. -/
def mainLoop (env : Nat → IterEnv) : LoopOutcome × Nat × Nat :=
  loopFrom env MAX_FIX_ITERATIONS 0 0

/-- Exit-code mapping of the hook `main`: only `Success` maps to 0. -/
def exitCode : LoopOutcome → Nat
  | LoopOutcome.success => 0
  | _ => 1

/-- An iteration environment in which linting always reports files changed
and every git operation succeeds. -/
def alwaysChangedEnv : Nat → IterEnv :=
  fun _ => { lintPassed := false, filesChanged := true, addOk := true,
             stagedNonempty := true, commitOk := true, failingPlugins := [] }

/-- Tool invocations the `lint_python` adapter can make, in source order:
`ruff check --fix`, `mypy`, `ruff check` (verify), `ruff format`. -/
inductive PyStep
  | ruffFix
  | mypyCheck
  | ruffVerify
  | ruffFormat
deriving DecidableEq, Repr

/-- Environment of one `lint_python` run: availability of the binaries and
the outcome of each external call it can make. -/
structure PyEnv where
  ruffFound : Bool
  changedAfterFix : Bool
  mypyAvailable : Bool
  mypyTimeout : Bool
  mypyOk : Bool
  verifyTimeout : Bool
  verifyOk : Bool
  changedAfterFormat : Bool
deriving DecidableEq, Repr

/-- The function `lint_python` of the `PRE_PUSH_HOOK` template, returning the
list of tool invocations attempted (the trace) and its
`(success, files_changed)` result.  A missing `ruff` aborts step 1 with
`(False, files_changed)`; a failing `mypy` (when available and not timed
out) aborts after step 2; a failing verify (not timed out) aborts after
step 3; only then does `ruff format` run. -/
def lint_python (e : PyEnv) : List PyStep × CategoryResult :=
  if !e.ruffFound then ([PyStep.ruffFix], { success := false, filesChanged := false })
  else
    let fc1 := e.changedAfterFix
    let trace1 := [PyStep.ruffFix]
    if e.mypyAvailable && !e.mypyTimeout && !e.mypyOk then
      (trace1 ++ [PyStep.mypyCheck], { success := false, filesChanged := fc1 })
    else
      let trace2 := if e.mypyAvailable then trace1 ++ [PyStep.mypyCheck] else trace1
      if !e.verifyTimeout && !e.verifyOk then
        (trace2 ++ [PyStep.ruffVerify], { success := false, filesChanged := fc1 })
      else
        (trace2 ++ [PyStep.ruffVerify, PyStep.ruffFormat],
          { success := true, filesChanged := fc1 || e.changedAfterFormat })

/-- Whether the `ruff check` verify step reported failure in this run
(a timed-out verify reports nothing and execution proceeds). -/
def pyVerifyReportedFailure (e : PyEnv) : Bool :=
  !e.verifyTimeout && !e.verifyOk

/-- Tool invocations the `lint_rust` adapter can make, in source order:
`cargo fmt`, `cargo clippy --fix`, `cargo clippy` (verify). -/
inductive RsStep
  | cargoFmt
  | clippyFix
  | clippyVerify
deriving DecidableEq, Repr

/-- Environment of one `lint_rust` run.  `verifyAborted` stands for the
final `cargo clippy` raising `TimeoutExpired` or `FileNotFoundError`, both
of which the source turns into a success result. -/
structure RsEnv where
  cargoTomlExists : Bool
  cargoFound : Bool
  changedAfterFmt : Bool
  changedAfterClippyFix : Bool
  verifyAborted : Bool
  verifyOk : Bool
deriving DecidableEq, Repr

/-- The function `lint_rust` of the `PRE_PUSH_HOOK` template: no
`Cargo.toml` means an immediate skip; otherwise `cargo fmt` runs first,
then `cargo clippy --fix`, then the verifying `cargo clippy`. -/
def lint_rust (e : RsEnv) : List RsStep × CategoryResult :=
  if !e.cargoTomlExists then ([], { success := true, filesChanged := false })
  else if !e.cargoFound then
    ([RsStep.cargoFmt], { success := false, filesChanged := false })
  else
    let fc := e.changedAfterFmt || e.changedAfterClippyFix
    ([RsStep.cargoFmt, RsStep.clippyFix, RsStep.clippyVerify],
      { success := (if !e.verifyAborted then e.verifyOk else true), filesChanged := fc })

end PrePushHook

namespace Setup

/-- The `ProjectType` enum of the source. -/
inductive ProjectType
  | marketplace
  | plugin
  | plugin_in_marketplace
  | unknown
deriving DecidableEq, Repr

/-- The `IssueLevel` enum of the source. -/
inductive IssueLevel
  | critical
  | major
  | minor
  | info
deriving DecidableEq, Repr

/-- The `PipelineIssue` dataclass. -/
structure PipelineIssue where
  level : IssueLevel
  component : String
  message : String
  fix_available : Bool
  fix_description : String
deriving DecidableEq, Repr

/-- The `PipelineStatus` dataclass; `project_path` is omitted because the
model works with one project tree.  The Python dicts are modelled as
insertion-ordered association lists. -/
structure PipelineStatus where
  project_type : ProjectType
  issues : List PipelineIssue
  hooks_installed : List (String × Bool)
  config_files : List (String × Bool)
  submodules : List String
deriving DecidableEq, Repr

/-- The property `PipelineStatus.is_valid`: no issue of level critical or
major. -/
def PipelineStatus.is_valid (s : PipelineStatus) : Bool :=
  !(s.issues.any (fun i =>
    i.level == IssueLevel.critical || i.level == IssueLevel.major))

/-- A filesystem path: an absolute flag plus components.  The project path
of a run is assumed absolute, matching `project_path.resolve()` in
`__init__`. -/
structure MPath where
  absolute : Bool
  comps : List String
deriving DecidableEq, Repr

/-- Path joining with Python semantics: an absolute right operand replaces
the left one. -/
def MPath.join (p q : MPath) : MPath :=
  if q.absolute then q else { absolute := p.absolute, comps := p.comps ++ q.comps }

/-- Append a single component (`path / "name"` on two plain names). -/
def MPath.child (p : MPath) (c : String) : MPath :=
  { absolute := p.absolute, comps := p.comps ++ [c] }

/-- Normalisation worker for `resolve`: the accumulator holds the already
normalised components in reverse, so a `..` drops its head. -/
def normCompsAux : List String → List String → List String
  | acc, [] => acc.reverse
  | acc, c :: rest =>
    if c == "." then normCompsAux acc rest
    else if c == ".." then normCompsAux (acc.drop 1) rest
    else normCompsAux (c :: acc) rest

/-- Component normalisation performed by `Path.resolve()` (symlinks are not
modelled; `.` and `..` are eliminated). -/
def normComps (cs : List String) : List String :=
  normCompsAux [] cs

/-- Model of `Path.resolve()` on an already absolute base. -/
def MPath.resolve (p : MPath) : MPath :=
  { absolute := p.absolute, comps := normComps p.comps }

/-- Whether `pat` occurs at the start of the second list. -/
def listHasPrefixCh : List Char → List Char → Bool
  | [], _ => true
  | _ :: _, [] => false
  | p :: ps, c :: cs => p == c && listHasPrefixCh ps cs

/-- Whether `pat` occurs anywhere in the list. -/
def listContainsSub (pat : List Char) : List Char → Bool
  | [] => listHasPrefixCh pat []
  | c :: cs => listHasPrefixCh pat (c :: cs) || listContainsSub pat cs

/-- Python substring containment `pat in content`. -/
def containsSubstr (content pat : String) : Bool :=
  listContainsSub pat.data content.data

/-- String equality over the underlying character lists. -/
def strEq (a b : String) : Bool :=
  a.data == b.data

/-- The whitespace characters Python's `str.strip()` removes (the ASCII
ones; the model does not need the rest of the Unicode set). -/
def isSpaceCh (c : Char) : Bool :=
  c == ' ' || c == '\t' || c == '\n' || c == '\x0d' || c == '\x0b' || c == '\x0c'

/-- Drop leading whitespace characters. -/
def dropLeadingSpace : List Char → List Char
  | [] => []
  | c :: cs => if isSpaceCh c then dropLeadingSpace cs else c :: cs

/-- Python `str.strip()`. -/
def pyStrip (s : String) : String :=
  String.mk ((dropLeadingSpace ((dropLeadingSpace s.data).reverse)).reverse)

/-- Python `str.startswith(pre)`. -/
def pyStartswith (s pre : String) : Bool :=
  listHasPrefixCh pre.data s.data

/-- Python slicing `s[n:]`. -/
def pyDrop (s : String) (n : Nat) : String :=
  String.mk (s.data.drop n)

/-- Split on `/` keeping empty parts, as Python's `str.split("/")` and the
`PurePath` parser do. -/
def splitSlashAux (cur : List Char) : List Char → List String
  | [] => [String.mk cur.reverse]
  | c :: cs =>
      if c == '/' then String.mk cur.reverse :: splitSlashAux [] cs
      else splitSlashAux (c :: cur) cs

/-- Parse a path string into components, recording whether it is
absolute. -/
def parsePath (s : String) : MPath :=
  { absolute := pyStartswith s "/",
    comps := (splitSlashAux [] s.data).filter (fun c => !c.data.isEmpty) }

/-- State of the `.git` entry of the project: absent, a directory, or a
file whose read either yields text or fails
(`OSError` / `UnicodeDecodeError`). -/
inductive GitEntry
  | absent
  | directory
  | file (content : Option String)
deriving DecidableEq, Repr

/-- The method `PipelineSetup._get_hooks_dir`: when `.git` is a readable
file whose stripped content starts with the `gitdir: ` redirection prefix,
the target (made absolute against the project path when relative) is
resolved and `hooks` appended; every other case falls back to
`project/.git/hooks`. -/
def get_hooks_dir (projectPath : MPath) (g : GitEntry) : MPath :=
  match g with
  | GitEntry.file (some content) =>
      let c := pyStrip content
      if pyStartswith c "gitdir: " then
        let target := parsePath (pyDrop c 8)
        (MPath.resolve (projectPath.join target)).child "hooks"
      else (projectPath.child ".git").child "hooks"
  | GitEntry.file none => (projectPath.child ".git").child "hooks"
  | _ => (projectPath.child ".git").child "hooks"

/-- Attributes of a hook file the source reads: the executable bit
(`os.access(..., os.X_OK)`) and `st_size` in bytes. -/
structure HookFile where
  executable : Bool
  size : Nat
deriving DecidableEq, Repr

/-- One `[submodule "name"]` section of `.gitmodules` together with the
filesystem facts the source queries about it: whether its configured path
exists and the state of `.git/modules/<path>/hooks`. -/
structure SubmoduleDecl where
  name : String
  path : String
  pathExists : Bool
  hooksDirExists : Bool
  postCommit : Bool
  postRewrite : Bool
  postMerge : Bool
deriving DecidableEq, Repr

/-- The observations `PipelineSetup` makes about the project tree, one
field per filesystem query in the source.  `gitmodules = none` covers both
an absent and an unparseable `.gitmodules` (both yield no submodules).
`gitignore`: `none` = absent, `some none` = exists but unreadable,
`some (some c)` = exists with content `c`.  `hasValidationWorkflow` is the
result of the `*.yml` content scan; `validateYmlExists` is the existence of
`.github/workflows/validate.yml` that `fix` checks. -/
structure Tree where
  marketplaceJson : Bool
  pluginJson : Bool
  gitEntry : GitEntry
  gitmodules : Option (List SubmoduleDecl)
  hookPreCommit : Option HookFile
  hookPrePush : Option HookFile
  hookPostRewrite : Option HookFile
  hookPostMerge : Option HookFile
  hookPostCommit : Bool
  cliffToml : Bool
  gitignore : Option (Option String)
  hasValidationWorkflow : Bool
  validateYmlExists : Bool
deriving DecidableEq, Repr

/-- The method `_detect_submodules`: appends to `status.submodules` the
configured path of every declared submodule whose path exists. -/
def detect_submodules (t : Tree) (s : PipelineStatus) : PipelineStatus :=
  match t.gitmodules with
  | none => s
  | some decls =>
      { s with submodules :=
          s.submodules ++ (decls.filter (fun d => d.pathExists)).map (fun d => d.path) }

/-- The method `detect_project_type`: marketplace manifest wins, then
plugin manifest (distinguishing a nested checkout by `.git` being a file),
otherwise unknown.  It mutates `status.project_type` in place. -/
def detect_project_type (t : Tree) (s : PipelineStatus) : PipelineStatus :=
  let isSubmodule : Bool :=
    match t.gitEntry with
    | GitEntry.file _ => true
    | _ => false
  if t.marketplaceJson then
    detect_submodules t { s with project_type := ProjectType.marketplace }
  else if t.pluginJson then
    { s with project_type :=
        if isSubmodule then ProjectType.plugin_in_marketplace else ProjectType.plugin }
  else { s with project_type := ProjectType.unknown }

/-- Issue appended by `validate` for an unknown project type. -/
def notAProjectIssue : PipelineIssue :=
  { level := IssueLevel.critical, component := "project",
    message := "Not a valid plugin or marketplace (missing .claude-plugin/plugin.json or marketplace.json)",
    fix_available := false, fix_description := "" }

/-- Issue appended by `validate` when `.git` does not exist. -/
def notGitRepoIssue : PipelineIssue :=
  { level := IssueLevel.critical, component := "git",
    message := "Not a git repository",
    fix_available := true, fix_description := "Initialize git repository" }

/-- Issue appended by `_validate_hooks` for an existing post-commit hook. -/
def postCommitIssue : PipelineIssue :=
  { level := IssueLevel.major, component := "hooks",
    message := "post-commit hook exists (causes rebase conflicts)",
    fix_available := true,
    fix_description := "Remove post-commit hook, use post-rewrite instead" }

/-- Issue appended by `_validate_hooks` for a missing required hook. -/
def missingHookIssue (name desc : String) : PipelineIssue :=
  { level := IssueLevel.major, component := "hooks",
    message := "Missing " ++ name ++ " hook (" ++ desc ++ ")",
    fix_available := true, fix_description := "Install " ++ name ++ " hook" }

/-- Issue appended by `_validate_hooks` for a non-executable hook. -/
def notExecutableHookIssue (name : String) : PipelineIssue :=
  { level := IssueLevel.major, component := "hooks",
    message := name ++ " hook is not executable",
    fix_available := true, fix_description := "Make " ++ name ++ " hook executable" }

/-- Python-dict assignment on an insertion-ordered association list. -/
def dictInsert (d : List (String × Bool)) (k : String) (v : Bool) : List (String × Bool) :=
  if d.any (fun p => strEq p.1 k) then d.map (fun p => if strEq p.1 k then (k, v) else p)
  else d ++ [(k, v)]

/-- Body of the `for hook_name, description in required_hooks.items()` loop
of `_validate_hooks`: records existence in `hooks_installed`, then flags a
missing hook, then a non-executable one.  File size is never consulted. -/
def checkHook (name desc : String) (h : Option HookFile) (s : PipelineStatus) : PipelineStatus :=
  let s1 := { s with hooks_installed := dictInsert s.hooks_installed name h.isSome }
  match h with
  | none => { s1 with issues := s1.issues ++ [missingHookIssue name desc] }
  | some f =>
      if !f.executable then
        { s1 with issues := s1.issues ++ [notExecutableHookIssue name] }
      else s1

/-- The method `_validate_hooks`. -/
def validate_hooks (t : Tree) (s : PipelineStatus) : PipelineStatus :=
  let s0 := if t.hookPostCommit then { s with issues := s.issues ++ [postCommitIssue] } else s
  let s1 := checkHook "pre-commit" "Lint and validate before commit" t.hookPreCommit s0
  let s2 := checkHook "pre-push" "Full validation before push" t.hookPrePush s1
  let s3 := checkHook "post-rewrite" "Changelog after rebase/amend" t.hookPostRewrite s2
  checkHook "post-merge" "Changelog after merge" t.hookPostMerge s3

/-- Issue appended by `_validate_config_files` for a missing config file. -/
def missingConfigIssue (filename desc : String) (lvl : IssueLevel) : PipelineIssue :=
  { level := lvl, component := "config",
    message := "Missing " ++ filename ++ " (" ++ desc ++ ")",
    fix_available := true, fix_description := "Create " ++ filename }

/-- Issue appended by `_validate_config_files` when no workflow mentions
validation. -/
def noWorkflowIssue : PipelineIssue :=
  { level := IssueLevel.minor, component := "ci",
    message := "No GitHub Actions validation workflow found",
    fix_available := true, fix_description := "Create .github/workflows/validate.yml" }

/-- Body of the config-file loop of `_validate_config_files`. -/
def checkConfig (filename desc : String) (lvl : IssueLevel) (present : Bool)
    (s : PipelineStatus) : PipelineStatus :=
  let s1 := { s with config_files := dictInsert s.config_files filename present }
  if !present then { s1 with issues := s1.issues ++ [missingConfigIssue filename desc lvl] }
  else s1

/-- The method `_validate_config_files`. -/
def validate_config_files (t : Tree) (s : PipelineStatus) : PipelineStatus :=
  let s1 := checkConfig "cliff.toml" "Changelog generation config" IssueLevel.minor t.cliffToml s
  let s2 := checkConfig ".gitignore" "Git ignore patterns" IssueLevel.minor t.gitignore.isSome s1
  let s3 := { s2 with config_files := dictInsert s2.config_files "github_workflow" t.hasValidationWorkflow }
  if !t.hasValidationWorkflow then { s3 with issues := s3.issues ++ [noWorkflowIssue] }
  else s3

/-- Issue appended by `_validate_submodule_hooks` for a missing submodule
hooks directory. -/
def submoduleHooksDirMissingIssue (p : String) : PipelineIssue :=
  { level := IssueLevel.minor, component := "submodules",
    message := "Submodule " ++ p ++ " hooks directory not found",
    fix_available := false, fix_description := "" }

/-- Issue appended by `_validate_submodule_hooks` for a submodule
post-commit hook. -/
def submodulePostCommitIssue (p : String) : PipelineIssue :=
  { level := IssueLevel.major, component := "submodules",
    message := "Submodule " ++ p ++ " has post-commit hook (causes rebase conflicts)",
    fix_available := true,
    fix_description := "Remove post-commit, install post-rewrite for " ++ p }

/-- Issue appended by `_validate_submodule_hooks` for a missing submodule
hook. -/
def submoduleMissingHookIssue (p hook : String) : PipelineIssue :=
  { level := IssueLevel.minor, component := "submodules",
    message := "Submodule " ++ p ++ " missing " ++ hook ++ " hook",
    fix_available := true, fix_description := "Install " ++ hook ++ " hook for " ++ p }

/-- Look up the filesystem state of the submodule configured at path `p`;
a path with no declaration behaves like a missing hooks directory. -/
def findSubmoduleState (t : Tree) (p : String) : Option SubmoduleDecl :=
  match t.gitmodules with
  | none => none
  | some decls => decls.find? (fun d => strEq d.path p)

/-- Body of the submodule loop of `_validate_submodule_hooks`. -/
def checkSubmodule (t : Tree) (s : PipelineStatus) (p : String) : PipelineStatus :=
  match findSubmoduleState t p with
  | none => { s with issues := s.issues ++ [submoduleHooksDirMissingIssue p] }
  | some d =>
      if !d.hooksDirExists then
        { s with issues := s.issues ++ [submoduleHooksDirMissingIssue p] }
      else
        let s1 := if d.postCommit then { s with issues := s.issues ++ [submodulePostCommitIssue p] } else s
        let s2 := if !d.postRewrite then
            { s1 with issues := s1.issues ++ [submoduleMissingHookIssue p "post-rewrite"] }
          else s1
        if !d.postMerge then
          { s2 with issues := s2.issues ++ [submoduleMissingHookIssue p "post-merge"] }
        else s2

/-- The method `_validate_submodule_hooks`, iterating over
`status.submodules`. -/
def validate_submodule_hooks (t : Tree) (s : PipelineStatus) : PipelineStatus :=
  s.submodules.foldl (checkSubmodule t) s

/-- The fresh status `__init__` stores on the instance. -/
def initStatus : PipelineStatus :=
  { project_type := ProjectType.unknown, issues := [], hooks_installed := [],
    config_files := [], submodules := [] }

/-- The method `PipelineSetup.validate`, threading the instance status it
mutates: type detection, the unknown-type early return, the git-repository
check, hooks, config files, and (for a marketplace) submodule hooks. -/
def validate (t : Tree) (s : PipelineStatus) : PipelineStatus :=
  let s0 := detect_project_type t s
  if s0.project_type == ProjectType.unknown then
    { s0 with issues := s0.issues ++ [notAProjectIssue] }
  else
    let s1 := if t.gitEntry == GitEntry.absent then
        { s0 with issues := s0.issues ++ [notGitRepoIssue] }
      else s0
    let s2 := validate_hooks t s1
    let s3 := validate_config_files t s2
    if s3.project_type == ProjectType.marketplace then validate_submodule_hooks t s3
    else s3

/-- The method `_hook_is_valid`: the hook file must exist, be executable,
and have `st_size` of at least 100 bytes. -/
def hook_is_valid (h : Option HookFile) : Bool :=
  match h with
  | none => false
  | some f => if !f.executable then false else if f.size < 100 then false else true

/-- UTF-8 byte length of the `PRE_COMMIT_HOOK` template string. -/
def PRE_COMMIT_HOOK_SIZE : Nat := 4989

/-- UTF-8 byte length of the `PRE_PUSH_HOOK` template string. -/
def PRE_PUSH_HOOK_SIZE : Nat := 40660

/-- UTF-8 byte length of the `POST_REWRITE_HOOK` template string. -/
def POST_REWRITE_HOOK_SIZE : Nat := 1291

/-- UTF-8 byte length of the `POST_MERGE_HOOK` template string. -/
def POST_MERGE_HOOK_SIZE : Nat := 1129

/-- One hook entry of the install loop of `_fix_hooks`: a hook that is
missing or fails `_hook_is_valid` is rewritten from its template and made
executable; in dry-run mode nothing is written and (in this loop only) the
counter is not incremented.  Writes are modelled as succeeding, so the
`OSError` branch is not represented. -/
def installHook (dry : Bool) (h : Option HookFile) (sz : Nat) : Option HookFile × Nat :=
  if h.isNone || !hook_is_valid h then
    if dry then (h, 0)
    else (some { executable := true, size := sz }, 1)
  else (h, 0)

/-- The method `_fix_hooks`: removes an existing post-commit hook (counted
even in dry-run, per the source), then walks the four required hooks. -/
def fix_hooks (dry : Bool) (t : Tree) : Tree × Nat :=
  let r0 : Tree × Nat :=
    if t.hookPostCommit then
      ((if dry then t else { t with hookPostCommit := false }), 1)
    else (t, 0)
  let t0 := r0.1
  let r1 := installHook dry t0.hookPreCommit PRE_COMMIT_HOOK_SIZE
  let t1 := { t0 with hookPreCommit := r1.1 }
  let r2 := installHook dry t1.hookPrePush PRE_PUSH_HOOK_SIZE
  let t2 := { t1 with hookPrePush := r2.1 }
  let r3 := installHook dry t2.hookPostRewrite POST_REWRITE_HOOK_SIZE
  let t3 := { t2 with hookPostRewrite := r3.1 }
  let r4 := installHook dry t3.hookPostMerge POST_MERGE_HOOK_SIZE
  let t4 := { t3 with hookPostMerge := r4.1 }
  (t4, r0.2 + r1.2 + r2.2 + r3.2 + r4.2)

/-- The `GITIGNORE_ADDITIONS` template string of the source, verbatim.
Note that it contains the markers `__pycache__` and `docs_dev/` but not
`.mypy_cache`. -/
def GITIGNORE_ADDITIONS : String :=
  "\n# Python\n__pycache__/\n*.py[cod]\n*$py.class\n*.so\n.Python\n.venv/\nvenv/\nENV/\n\n# IDE\n.idea/\n.vscode/\n*.swp\n*.swo\n\n# OS\n.DS_Store\nThumbs.db\n\n# Build artifacts\ndist/\nbuild/\n*.egg-info/\n\n# Logs\n*.log\nlogs/\n\n# Dev folders\ndocs_dev/\nscripts_dev/\ntests_dev/\n"

/-- The marker list of `_fix_config_files`'s duplicate-avoidance check. -/
def gitignoreMarkers : List String := ["__pycache__", ".mypy_cache", "docs_dev/"]

/-- The `needs_update` condition of `_fix_config_files`: true unless all
three markers occur in the current `.gitignore` content. -/
def needsGitignoreUpdate (content : String) : Bool :=
  !(gitignoreMarkers.all (fun m => containsSubstr content m))

/-- The method `_fix_config_files`: creates `cliff.toml`, creates or
appends to `.gitignore`, and creates `.github/workflows/validate.yml`.
All three counters are incremented even in dry-run, per the source.
Creating `validate.yml` also makes the validation-workflow scan succeed,
because the written `GITHUB_WORKFLOW` text mentions validation.  An
unreadable `.gitignore` is skipped with a warning. -/
def fix_config_files (dry : Bool) (t : Tree) : Tree × Nat :=
  let r1 : Tree × Nat :=
    if !t.cliffToml then
      ((if dry then t else { t with cliffToml := true }), 1)
    else (t, 0)
  let t1 := r1.1
  let r2 : Tree × Nat :=
    match t1.gitignore with
    | none =>
        ((if dry then t1 else { t1 with gitignore := some (some GITIGNORE_ADDITIONS) }), 1)
    | some none => (t1, 0)
    | some (some c) =>
        if needsGitignoreUpdate c then
          ((if dry then t1
            else { t1 with gitignore := some (some (c ++ "\n" ++ GITIGNORE_ADDITIONS)) }), 1)
        else (t1, 0)
  let t2 := r2.1
  let r3 : Tree × Nat :=
    if !t2.validateYmlExists then
      ((if dry then t2
        else { t2 with validateYmlExists := true, hasValidationWorkflow := true }), 1)
    else (t2, 0)
  (r3.1, r1.2 + r2.2 + r3.2)

/-- Fixes applied to one submodule's hooks directory by
`_fix_submodule_hooks` (removal and installs are counted only when actually
performed, so a dry run counts nothing here). -/
def fixSubmoduleDecl (dry : Bool) (d : SubmoduleDecl) : SubmoduleDecl × Nat :=
  let r1 : SubmoduleDecl × Nat :=
    if d.postCommit then
      (if dry then (d, 0) else ({ d with postCommit := false }, 1))
    else (d, 0)
  let d1 := r1.1
  let r2 : SubmoduleDecl × Nat :=
    if !d1.postRewrite then
      (if dry then (d1, 0) else ({ d1 with postRewrite := true }, 1))
    else (d1, 0)
  let d2 := r2.1
  let r3 : SubmoduleDecl × Nat :=
    if !d2.postMerge then
      (if dry then (d2, 0) else ({ d2 with postMerge := true }, 1))
    else (d2, 0)
  (r3.1, r1.2 + r2.2 + r3.2)

/-- Replace the declaration at path `p`. -/
def updateSubmodule (decls : List SubmoduleDecl) (p : String) (d : SubmoduleDecl) :
    List SubmoduleDecl :=
  decls.map (fun x => if strEq x.path p then d else x)

/-- The method `_fix_submodule_hooks`, iterating over the submodule paths
recorded in the status; a missing hooks directory is skipped. -/
def fix_submodule_hooks (dry : Bool) (t : Tree) (subs : List String) : Tree × Nat :=
  subs.foldl (fun (acc : Tree × Nat) p =>
    match findSubmoduleState acc.1 p with
    | none => acc
    | some d =>
        if !d.hooksDirExists then acc
        else
          let r := fixSubmoduleDecl dry d
          ({ acc.1 with gitmodules := acc.1.gitmodules.map (fun ds => updateSubmodule ds p r.1) },
            acc.2 + r.2))
    (t, 0)

/-- The method `PipelineSetup.fix`: returns 1 immediately for an unknown
project type (an error code, not a fix count), otherwise sums the hook,
config-file and (for a marketplace) submodule fixes.  `s` is the instance
status at the time of the call, which supplies `project_type` and
`submodules`. -/
def fix (dry : Bool) (t : Tree) (s : PipelineStatus) : Tree × Nat :=
  if s.project_type == ProjectType.unknown then (t, 1)
  else
    let r1 := fix_hooks dry t
    let r2 := fix_config_files dry r1.1
    let r3 :=
      if s.project_type == ProjectType.marketplace then
        fix_submodule_hooks dry r2.1 s.submodules
      else (r2.1, 0)
    (r3.1, r1.2 + r2.2 + r3.2)

/-- The CLI flags of `main` that influence the exit code (`--type`,
`--quiet` and `--verbose` do not). -/
structure Args where
  validateFlag : Bool
  fixFlag : Bool
  dryRun : Bool
  jsonFlag : Bool
deriving DecidableEq, Repr

/-- The CLI `main`: validates, handles `--json` (which returns before the
fix block), runs the `--fix` block (skipped when nothing is fixable and not
dry-run; the status is rebuilt fresh and re-validated only in a real fix
run), then computes the exit code: validity-based for `--validate`/`--fix`,
and 0 unconditionally in the default setup mode (which still applies fixes
when invalid).  Returns the exit code and the final status the code is
derived from. -/
def mainRun (a : Args) (pathExists : Bool) (t : Tree) : Nat × PipelineStatus :=
  if !pathExists then (1, initStatus)
  else
    let s1 := validate t initStatus
    if a.jsonFlag then ((if s1.is_valid then 0 else 1), s1)
    else
      let s2 :=
        if a.fixFlag then
          let fixable := s1.issues.any (fun i => i.fix_available)
          if !fixable && !a.dryRun then s1
          else
            let r := fix a.dryRun t s1
            if a.dryRun then s1
            else validate r.1 initStatus
        else s1
      if a.validateFlag || a.fixFlag then ((if s2.is_valid then 0 else 1), s2)
      else (0, s2)

end Setup

/-- Environment in which the final `cargo clippy` verification reports
failure while everything else runs normally. -/
def rustVerifyFailEnv : PrePushHook.RsEnv :=
  { cargoTomlExists := true, cargoFound := true, changedAfterFmt := false,
    changedAfterClippyFix := false, verifyAborted := false, verifyOk := false }

/-- Hook file that is executable but below the 100-byte size floor. -/
def smallHook : Setup.HookFile := { executable := true, size := 50 }

/-- Plugin tree whose four required hooks are present and executable but
only 50 bytes each, with all configuration present. -/
def smallHookTree : Setup.Tree :=
  { marketplaceJson := false, pluginJson := true,
    gitEntry := Setup.GitEntry.directory, gitmodules := none,
    hookPreCommit := some smallHook, hookPrePush := some smallHook,
    hookPostRewrite := some smallHook, hookPostMerge := some smallHook,
    hookPostCommit := false, cliffToml := true, gitignore := some (some ""),
    hasValidationWorkflow := true, validateYmlExists := true }

/-- An absolute project path used to exercise the hooks-directory cases. -/
def projPath : Setup.MPath := { absolute := true, comps := ["home", "repo"] }

/-- Fresh plugin tree: a plugin manifest and a `.git` directory, but no
hooks and no configuration — the state before a first `fix()`. -/
def freshPluginTree : Setup.Tree :=
  { marketplaceJson := false, pluginJson := true,
    gitEntry := Setup.GitEntry.directory, gitmodules := none,
    hookPreCommit := none, hookPrePush := none, hookPostRewrite := none,
    hookPostMerge := none, hookPostCommit := false, cliffToml := false,
    gitignore := none, hasValidationWorkflow := false, validateYmlExists := false }

/-- Status produced by the first `validate()` on the fresh plugin tree. -/
def statusAfterFirstValidate : Setup.PipelineStatus :=
  Setup.validate freshPluginTree Setup.initStatus

/-- The tree after the first (real, non-dry) `fix()`. -/
def treeAfterFirstFix : Setup.Tree :=
  (Setup.fix false freshPluginTree statusAfterFirstValidate).1

/-- Status produced by re-validating the fixed tree from a fresh status,
as the CLI does after `--fix`. -/
def statusAfterSecondValidate : Setup.PipelineStatus :=
  Setup.validate treeAfterFirstFix Setup.initStatus

/-- Issues one `checkHook` call appends, independent of the incoming
status. -/
def hookDelta (name desc : String) (h : Option Setup.HookFile) :
    List Setup.PipelineIssue :=
  match h with
  | none => [Setup.missingHookIssue name desc]
  | some f => if !f.executable then [Setup.notExecutableHookIssue name] else []

/-- Issues one `checkConfig` call appends, independent of the incoming
status. -/
def configDelta (filename desc : String) (lvl : Setup.IssueLevel) (present : Bool) :
    List Setup.PipelineIssue :=
  if !present then [Setup.missingConfigIssue filename desc lvl] else []

/-- Issues `_validate_hooks` appends for a given tree. -/
def hooksDelta (t : Setup.Tree) : List Setup.PipelineIssue :=
  (if t.hookPostCommit then [Setup.postCommitIssue] else []) ++
  hookDelta "pre-commit" "Lint and validate before commit" t.hookPreCommit ++
  hookDelta "pre-push" "Full validation before push" t.hookPrePush ++
  hookDelta "post-rewrite" "Changelog after rebase/amend" t.hookPostRewrite ++
  hookDelta "post-merge" "Changelog after merge" t.hookPostMerge

/-- Issues `_validate_config_files` appends for a given tree. -/
def configsDelta (t : Setup.Tree) : List Setup.PipelineIssue :=
  configDelta "cliff.toml" "Changelog generation config" Setup.IssueLevel.minor
    t.cliffToml ++
  configDelta ".gitignore" "Git ignore patterns" Setup.IssueLevel.minor
    t.gitignore.isSome ++
  (if !t.hasValidationWorkflow then [Setup.noWorkflowIssue] else [])

/-- CLI arguments of the default setup mode (no flags). -/
def defaultArgs : Setup.Args :=
  { validateFlag := false, fixFlag := false, dryRun := false, jsonFlag := false }

/-- CLI arguments of `--validate`. -/
def validateArgs : Setup.Args :=
  { validateFlag := true, fixFlag := false, dryRun := false, jsonFlag := false }


namespace PrePushHook

theorem loopFrom_alwaysChanged (env : Nat → IterEnv)
    (h : ∀ i, (env i).filesChanged = true ∧ (env i).addOk = true ∧
      (env i).stagedNonempty = true ∧ (env i).commitOk = true) :
    ∀ rem iteration commits,
      loopFrom env rem iteration commits =
        (LoopOutcome.exhausted, iteration + rem, commits + rem) := by
  intro rem
  induction rem with
  | zero => intro iteration commits; simp [loopFrom]
  | succ n ih =>
    intro iteration commits
    obtain ⟨h1, h2, h3, h4⟩ := h (iteration + 1)
    rw [loopFrom]
    simp only [h1, if_true, commit_auto_fixes, h2, h3, h4]
    simp only [Bool.not_true, Bool.false_eq_true, if_false, ite_true, if_true]
    rw [ih]
    simp only [Prod.mk.injEq, true_and]
    omega

end PrePushHook

/-- C6: a `PipelineStatus` is valid exactly when its issue list contains no
issue of severity critical or major; minor and info issues never affect
validity. -/
theorem C6_is_valid_iff_no_critical_or_major (s : Setup.PipelineStatus) :
    s.is_valid = true ↔
      ∀ i ∈ s.issues,
        i.level ≠ Setup.IssueLevel.critical ∧ i.level ≠ Setup.IssueLevel.major := by
  simp only [Setup.PipelineStatus.is_valid, Bool.not_eq_true', List.any_eq_false,
    Bool.or_eq_true, beq_iff_eq, not_or]

/-- C2 counterexample: with one category returning `(success := false,
filesChanged := false)` and another `(success := true, filesChanged :=
false)`, `run_linting` aggregates to `(false, false)` and the iteration
terminates as blocked — not commit-and-restart as the claim states. -/
theorem C2_counterexample_blocked :
    PrePushHook.run_linting
      [PrePushHook.CategoryRun.ran { success := false, filesChanged := false },
       PrePushHook.CategoryRun.ran { success := true, filesChanged := false }] =
      (false, false) ∧
    PrePushHook.iterationDecision false false = PrePushHook.IterationDecision.blocked ∧
    PrePushHook.IterationDecision.blocked ≠ PrePushHook.IterationDecision.commitAndRestart := by
  decide

/-- C2 (amended): whenever the aggregated `run_linting` result reports a
file change by any category, the iteration decision is commit-and-restart,
regardless of any category's failure. -/
theorem C2_changed_by_any_forces_restart (cats : List PrePushHook.CategoryRun)
    (h : (PrePushHook.run_linting cats).2 = true) :
    PrePushHook.iterationDecision (PrePushHook.run_linting cats).1
      (PrePushHook.run_linting cats).2 = PrePushHook.IterationDecision.commitAndRestart := by
  rw [h]
  simp [PrePushHook.iterationDecision]

/-- Witness for C2: a failing unchanged category next to a changed one
yields commit-and-restart. -/
theorem C2_changed_by_any_forces_restart_witness :
    PrePushHook.iterationDecision
      (PrePushHook.run_linting
        [PrePushHook.CategoryRun.ran { success := false, filesChanged := false },
         PrePushHook.CategoryRun.ran { success := true, filesChanged := true }]).1
      (PrePushHook.run_linting
        [PrePushHook.CategoryRun.ran { success := false, filesChanged := false },
         PrePushHook.CategoryRun.ran { success := true, filesChanged := true }]).2 =
      PrePushHook.IterationDecision.commitAndRestart :=
  C2_changed_by_any_forces_restart
    [PrePushHook.CategoryRun.ran { success := false, filesChanged := false },
     PrePushHook.CategoryRun.ran { success := true, filesChanged := true }] (by decide)

/-- C4 counterexample: a category whose mandatory tool cannot be installed
is skipped by `run_linting` (the `continue` branch), so the aggregate is
`(true, false)`, the iteration proceeds to plugin validation, and the loop
can end in success — not with `success = false` surfacing as
`BlockedUnfixableLint` as the claim states. -/
theorem C4_counterexample_tool_missing_skipped :
    PrePushHook.run_linting [PrePushHook.CategoryRun.toolMissing] = (true, false) ∧
    PrePushHook.iterationDecision true false =
      PrePushHook.IterationDecision.validatePlugins ∧
    (PrePushHook.mainLoop (fun _ =>
      { lintPassed := true, filesChanged := false, addOk := true,
        stagedNonempty := false, commitOk := true, failingPlugins := [] })).1 =
      PrePushHook.LoopOutcome.success ∧
    PrePushHook.LoopOutcome.success ≠ PrePushHook.LoopOutcome.blockedUnfixableLint := by
  decide

/-- C4 (amended): a category whose mandatory fixing tool cannot be located
or installed is skipped entirely: it contributes neither a failure nor a
file change to the aggregate, wherever it occurs in the category list, so
the loop does not end as `BlockedUnfixableLint` on its account. -/
theorem C4_tool_missing_has_no_effect (pre post : List PrePushHook.CategoryRun) :
    PrePushHook.run_linting (pre ++ PrePushHook.CategoryRun.toolMissing :: post) =
      PrePushHook.run_linting (pre ++ post) := by
  simp [PrePushHook.run_linting, List.foldl_append, PrePushHook.lintStep]

/-- C1 counterexample: when every round reports files changed and all git
operations succeed, the loop ends `Exhausted` after 5 rounds having created
5 commits — not `MAX_FIX_ITERATIONS - 1 = 4` as the claim states, because
the source commits before re-testing the loop bound. -/
theorem C1_counterexample_commit_count :
    (PrePushHook.mainLoop PrePushHook.alwaysChangedEnv).1 =
      PrePushHook.LoopOutcome.exhausted ∧
    (PrePushHook.mainLoop PrePushHook.alwaysChangedEnv).2.1 = 5 ∧
    (PrePushHook.mainLoop PrePushHook.alwaysChangedEnv).2.2 = 5 ∧
    ¬((PrePushHook.mainLoop PrePushHook.alwaysChangedEnv).2.2 =
        PrePushHook.MAX_FIX_ITERATIONS - 1) := by
  decide

/-- C1 (amended): if every round's linting reports files changed and every
git operation succeeds, the loop terminates `Exhausted` (nonzero exit)
after exactly `MAX_FIX_ITERATIONS` rounds, having created exactly
`MAX_FIX_ITERATIONS` commits (each round commits before the bound is
re-tested). -/
theorem C1_exhausted_with_max_commits (env : Nat → PrePushHook.IterEnv)
    (h : ∀ i, (env i).filesChanged = true ∧ (env i).addOk = true ∧
      (env i).stagedNonempty = true ∧ (env i).commitOk = true) :
    PrePushHook.mainLoop env =
      (PrePushHook.LoopOutcome.exhausted, PrePushHook.MAX_FIX_ITERATIONS,
        PrePushHook.MAX_FIX_ITERATIONS) ∧
    PrePushHook.exitCode PrePushHook.LoopOutcome.exhausted ≠ 0 := by
  refine ⟨?_, by decide⟩
  have h5 := PrePushHook.loopFrom_alwaysChanged env h PrePushHook.MAX_FIX_ITERATIONS 0 0
  simpa [PrePushHook.mainLoop] using h5

/-- Witness for C1: the always-changed environment realises the amended
claim. -/
theorem C1_exhausted_with_max_commits_witness :
    PrePushHook.mainLoop PrePushHook.alwaysChangedEnv =
      (PrePushHook.LoopOutcome.exhausted, PrePushHook.MAX_FIX_ITERATIONS,
        PrePushHook.MAX_FIX_ITERATIONS) ∧
    PrePushHook.exitCode PrePushHook.LoopOutcome.exhausted ≠ 0 :=
  C1_exhausted_with_max_commits PrePushHook.alwaysChangedEnv
    (fun _ => ⟨rfl, rfl, rfl, rfl⟩)

/-- C7 counterexample: the Rust adapter both fixes (`cargo clippy --fix`)
and formats (`cargo fmt`), yet it runs the formatter first — before fix and
verify — and the formatter is executed in a run whose verify step reported
failure, contradicting the ordering invariant claimed for every such
adapter. -/
theorem C7_counterexample_rust_formats_first :
    (PrePushHook.lint_rust rustVerifyFailEnv).2.success = false ∧
    PrePushHook.RsStep.cargoFmt ∈ (PrePushHook.lint_rust rustVerifyFailEnv).1 ∧
    PrePushHook.RsStep.clippyFix ∈ (PrePushHook.lint_rust rustVerifyFailEnv).1 ∧
    (PrePushHook.lint_rust rustVerifyFailEnv).1.head? =
      some PrePushHook.RsStep.cargoFmt := by
  decide

/-- C7 (amended): the Python adapter obeys the ordering invariant: its
trace is always an ordered subsequence of fix, typecheck, verify, format,
and the format step never executes in a run whose verify step reported
failure. -/
theorem C7_python_adapter_order (e : PrePushHook.PyEnv) :
    (PrePushHook.lint_python e).1.Sublist
      [PrePushHook.PyStep.ruffFix, PrePushHook.PyStep.mypyCheck,
       PrePushHook.PyStep.ruffVerify, PrePushHook.PyStep.ruffFormat] ∧
    (PrePushHook.pyVerifyReportedFailure e &&
      (PrePushHook.lint_python e).1.contains PrePushHook.PyStep.ruffFormat) = false := by
  obtain ⟨a, b, c, d, f, g, h, i⟩ := e
  cases a <;> cases b <;> cases c <;> cases d <;> cases f <;> cases g <;>
    cases h <;> cases i <;> decide

/-- C5 counterexample: `validate` on a tree whose hooks are executable
50-byte stubs raises no issue at all and records every hook as installed,
even though `_hook_is_valid` rejects such a file — the size floor is not
applied during validation, contradicting the claim. -/
theorem C5_counterexample_validate_ignores_size :
    (Setup.validate smallHookTree Setup.initStatus).issues = [] ∧
    (Setup.validate smallHookTree Setup.initStatus).hooks_installed =
      [("pre-commit", true), ("pre-push", true), ("post-rewrite", true),
       ("post-merge", true)] ∧
    (Setup.validate smallHookTree Setup.initStatus).is_valid = true ∧
    Setup.hook_is_valid (some smallHook) = false := by
  decide

/-- C5 (amended): the 100-byte size floor lives in `_hook_is_valid`, which
`fix` uses: an executable hook file under 100 bytes is classified invalid
and reinstalled from its template by the hook-install loop; `validate`, by
contrast, raises no hooks issue when all four hooks exist and are
executable, regardless of their sizes. -/
theorem C5_size_floor_applies_to_fix_not_validate (f : Setup.HookFile)
    (t : Setup.Tree) (s : Setup.PipelineStatus)
    (hsz : f.size < 100) (hex : f.executable = true) :
    Setup.hook_is_valid (some f) = false ∧
    (∀ sz, Setup.installHook false (some f) sz =
      (some { executable := true, size := sz }, 1)) ∧
    (t.hookPostCommit = false → t.hookPreCommit = some f → t.hookPrePush = some f →
      t.hookPostRewrite = some f → t.hookPostMerge = some f →
      (Setup.validate_hooks t s).issues = s.issues) := by
  have hv : Setup.hook_is_valid (some f) = false := by
    simp [Setup.hook_is_valid, hex, hsz]
  refine ⟨hv, ?_, ?_⟩
  · intro sz
    simp [Setup.installHook, hv]
  · intro hpc h1 h2 h3 h4
    simp [Setup.validate_hooks, Setup.checkHook, hpc, h1, h2, h3, h4, hex]

/-- Witness for C5: the 50-byte executable hook is invalid for `fix` and
reinstalled, while `validate_hooks` adds no issue on the stub tree. -/
theorem C5_size_floor_witness :
    Setup.hook_is_valid (some smallHook) = false ∧
    Setup.installHook false (some smallHook) Setup.PRE_PUSH_HOOK_SIZE =
      (some { executable := true, size := Setup.PRE_PUSH_HOOK_SIZE }, 1) ∧
    (Setup.validate_hooks smallHookTree Setup.initStatus).issues =
      Setup.initStatus.issues := by
  have h := C5_size_floor_applies_to_fix_not_validate smallHook smallHookTree
    Setup.initStatus (by decide) (by decide)
  exact ⟨h.1, h.2.1 Setup.PRE_PUSH_HOOK_SIZE, h.2.2 rfl rfl rfl rfl rfl⟩

/-- C10: `_get_hooks_dir` is total over every `.git` entry state: a `.git`
file whose stripped content lacks the `gitdir: ` prefix, or which cannot be
read or decoded, falls back to `<project>/.git/hooks`; a relative
redirection target is joined onto the project path before being resolved. -/
theorem C10_hooks_dir_resolution (pp : Setup.MPath) :
    (∀ c, Setup.pyStartswith (Setup.pyStrip c) "gitdir: " = false →
      Setup.get_hooks_dir pp (Setup.GitEntry.file (some c)) =
        (pp.child ".git").child "hooks") ∧
    (Setup.get_hooks_dir pp (Setup.GitEntry.file none) =
      (pp.child ".git").child "hooks") ∧
    (∀ c, Setup.pyStartswith (Setup.pyStrip c) "gitdir: " = true →
      (Setup.parsePath (Setup.pyDrop (Setup.pyStrip c) 8)).absolute = false →
      Setup.get_hooks_dir pp (Setup.GitEntry.file (some c)) =
        (Setup.MPath.resolve
          { absolute := pp.absolute,
            comps := pp.comps ++
              (Setup.parsePath (Setup.pyDrop (Setup.pyStrip c) 8)).comps }).child
          "hooks") := by
  refine ⟨?_, rfl, ?_⟩
  · intro c h
    simp [Setup.get_hooks_dir, h]
  · intro c h1 h2
    simp [Setup.get_hooks_dir, h1, Setup.MPath.join, h2]

/-- Witness for C10: a malformed `.git` file and an unreadable one fall
back to `<project>/.git/hooks`; a relative `gitdir: ` target resolves
against the project path. -/
theorem C10_hooks_dir_witness :
    Setup.get_hooks_dir projPath (Setup.GitEntry.file (some "corrupted")) =
      (projPath.child ".git").child "hooks" ∧
    Setup.get_hooks_dir projPath (Setup.GitEntry.file none) =
      (projPath.child ".git").child "hooks" ∧
    Setup.get_hooks_dir projPath
      (Setup.GitEntry.file (some "gitdir: ../repo2/.git/modules/sub\n")) =
      (Setup.MPath.resolve
        { absolute := projPath.absolute,
          comps := projPath.comps ++
            (Setup.parsePath
              (Setup.pyDrop
                (Setup.pyStrip "gitdir: ../repo2/.git/modules/sub\n") 8)).comps }).child
        "hooks" := by
  have h := C10_hooks_dir_resolution projPath
  exact ⟨h.1 "corrupted" (by decide), h.2.1,
    h.2.2 "gitdir: ../repo2/.git/modules/sub\n" (by decide) (by decide)⟩

set_option maxRecDepth 8192 in
set_option maxHeartbeats 1000000 in
/-- C3 (code bug): the `.gitignore` content `fix()` writes lacks the
`.mypy_cache` marker that its own duplicate-avoidance check requires, so on
an unchanged tree a second `fix()` appends `GITIGNORE_ADDITIONS` to
`.gitignore` again and returns 1, not 0 — `fix()` is not idempotent and
never converges on this file. -/
theorem C3_code_bug_gitignore_reappended :
    Setup.containsSubstr Setup.GITIGNORE_ADDITIONS "__pycache__" = true ∧
    Setup.containsSubstr Setup.GITIGNORE_ADDITIONS ".mypy_cache" = false ∧
    treeAfterFirstFix.gitignore = some (some Setup.GITIGNORE_ADDITIONS) ∧
    (Setup.fix false treeAfterFirstFix statusAfterSecondValidate).2 = 1 ∧
    ¬((Setup.fix false treeAfterFirstFix statusAfterSecondValidate).2 = 0) ∧
    (Setup.fix false treeAfterFirstFix statusAfterSecondValidate).1.gitignore =
      some (some (Setup.GITIGNORE_ADDITIONS ++ "\n" ++ Setup.GITIGNORE_ADDITIONS)) := by
  decide

/-- The issues appended by one `checkHook` call do not depend on the
incoming status. -/
theorem checkHook_issues_append (name desc : String) (h : Option Setup.HookFile)
    (s : Setup.PipelineStatus) :
    (Setup.checkHook name desc h s).issues = s.issues ++ hookDelta name desc h := by
  cases h with
  | none => simp [Setup.checkHook, hookDelta]
  | some f => cases hf : f.executable <;> simp [Setup.checkHook, hookDelta, hf]

/-- `checkHook` never changes the project type. -/
theorem checkHook_project_type (name desc : String) (h : Option Setup.HookFile)
    (s : Setup.PipelineStatus) :
    (Setup.checkHook name desc h s).project_type = s.project_type := by
  cases h with
  | none => simp [Setup.checkHook]
  | some f => cases hf : f.executable <;> simp [Setup.checkHook, hf]

/-- The issues appended by one `checkConfig` call do not depend on the
incoming status. -/
theorem checkConfig_issues_append (filename desc : String) (lvl : Setup.IssueLevel)
    (present : Bool) (s : Setup.PipelineStatus) :
    (Setup.checkConfig filename desc lvl present s).issues =
      s.issues ++ configDelta filename desc lvl present := by
  cases present <;> simp [Setup.checkConfig, configDelta]

/-- `checkConfig` never changes the project type. -/
theorem checkConfig_project_type (filename desc : String) (lvl : Setup.IssueLevel)
    (present : Bool) (s : Setup.PipelineStatus) :
    (Setup.checkConfig filename desc lvl present s).project_type = s.project_type := by
  cases present <;> simp [Setup.checkConfig]

/-- `_validate_hooks` appends a status-independent issue list. -/
theorem validate_hooks_issues_append (t : Setup.Tree) (s : Setup.PipelineStatus) :
    (Setup.validate_hooks t s).issues = s.issues ++ hooksDelta t := by
  simp only [Setup.validate_hooks, hooksDelta]
  rw [checkHook_issues_append, checkHook_issues_append, checkHook_issues_append,
    checkHook_issues_append]
  cases t.hookPostCommit <;> simp [List.append_assoc]

/-- `_validate_hooks` never changes the project type. -/
theorem validate_hooks_project_type (t : Setup.Tree) (s : Setup.PipelineStatus) :
    (Setup.validate_hooks t s).project_type = s.project_type := by
  simp only [Setup.validate_hooks]
  rw [checkHook_project_type, checkHook_project_type, checkHook_project_type,
    checkHook_project_type]
  cases t.hookPostCommit <;> rfl

/-- `_validate_config_files` appends a status-independent issue list. -/
theorem validate_config_files_issues_append (t : Setup.Tree) (s : Setup.PipelineStatus) :
    (Setup.validate_config_files t s).issues = s.issues ++ configsDelta t := by
  simp only [Setup.validate_config_files, configsDelta]
  cases t.hasValidationWorkflow <;>
    simp [checkConfig_issues_append, List.append_assoc]

/-- `_validate_config_files` never changes the project type. -/
theorem validate_config_files_project_type (t : Setup.Tree) (s : Setup.PipelineStatus) :
    (Setup.validate_config_files t s).project_type = s.project_type := by
  simp only [Setup.validate_config_files]
  cases t.hasValidationWorkflow <;>
    simp [checkConfig_project_type]

/-- C9 counterexample: on an unchanged plugin tree, a second `validate()`
on the same `PipelineSetup` does not reproduce the first issue list — it
appends a duplicate of every issue, growing the list from 7 to 14. -/
theorem C9_counterexample_validate_accumulates :
    (Setup.validate freshPluginTree Setup.initStatus).issues.length = 7 ∧
    (Setup.validate freshPluginTree
      (Setup.validate freshPluginTree Setup.initStatus)).issues.length = 14 ∧
    (Setup.validate freshPluginTree
        (Setup.validate freshPluginTree Setup.initStatus)).issues ≠
      (Setup.validate freshPluginTree Setup.initStatus).issues := by
  decide

/-- C9 (amended): `validate()` appends to the status already stored on the
`PipelineSetup` instead of rebuilding it: for any non-marketplace tree, the
issues after a call are the incoming issues followed by the issues a fresh
status would collect — so a second call duplicates them, and a fresh result
requires resetting the status, as the CLI does before re-validating. -/
theorem C9_validate_appends (t : Setup.Tree) (s : Setup.PipelineStatus)
    (hm : t.marketplaceJson = false) :
    (Setup.validate t s).issues =
      s.issues ++ (Setup.validate t Setup.initStatus).issues := by
  cases hp : t.pluginJson with
  | false =>
      simp [Setup.validate, Setup.detect_project_type, hm, hp, Setup.initStatus]
  | true =>
      cases hg : t.gitEntry with
      | absent =>
          simp [Setup.validate, Setup.detect_project_type, hm, hp, hg,
            Setup.initStatus, validate_hooks_project_type,
            validate_config_files_project_type, validate_hooks_issues_append,
            validate_config_files_issues_append, List.append_assoc]
      | directory =>
          simp [Setup.validate, Setup.detect_project_type, hm, hp, hg,
            Setup.initStatus, validate_hooks_project_type,
            validate_config_files_project_type, validate_hooks_issues_append,
            validate_config_files_issues_append, List.append_assoc]
      | file c =>
          simp [Setup.validate, Setup.detect_project_type, hm, hp, hg,
            Setup.initStatus, validate_hooks_project_type,
            validate_config_files_project_type, validate_hooks_issues_append,
            validate_config_files_issues_append, List.append_assoc]

/-- Witness for C9: on the fresh plugin tree, the second call's issue list
is the first list duplicated. -/
theorem C9_validate_appends_witness :
    (Setup.validate freshPluginTree
        (Setup.validate freshPluginTree Setup.initStatus)).issues =
      (Setup.validate freshPluginTree Setup.initStatus).issues ++
        (Setup.validate freshPluginTree Setup.initStatus).issues :=
  C9_validate_appends freshPluginTree
    (Setup.validate freshPluginTree Setup.initStatus) rfl

/-- C8 counterexample: in the default setup mode (no `--validate`, `--fix`
or `--json`), `main` exits 0 even though the resulting status is invalid
(the fresh plugin tree has four major issues), refuting exit-0-iff-valid
for every mode. -/
theorem C8_counterexample_default_mode :
    (Setup.mainRun defaultArgs true freshPluginTree).1 = 0 ∧
    ((Setup.mainRun defaultArgs true freshPluginTree).2).is_valid = false := by
  decide

/-- Exit codes of the validity-based branches of `main`. -/
theorem exitIfAux (b : Bool) : (if b = true then (0 : Nat) else 1) = 0 ↔ b = true := by
  cases b <;> simp

/-- C8 (amended): the exit code is 0 exactly when the resulting
`PipelineStatus.is_valid` holds in the `--validate`, `--fix` and `--json`
modes; the default setup mode instead always exits 0 (shown by the
counterexample). -/
theorem C8_exit_zero_iff_valid_in_flag_modes (a : Setup.Args) (t : Setup.Tree)
    (h : (a.validateFlag || a.fixFlag || a.jsonFlag) = true) :
    ((Setup.mainRun a true t).1 = 0 ↔
      ((Setup.mainRun a true t).2).is_valid = true) := by
  obtain ⟨av, af, ad, aj⟩ := a
  cases av <;> cases af <;> cases ad <;> cases aj <;>
    first
      | exact absurd h (by decide)
      | exact exitIfAux _

/-- Witness for C8: in `--validate` mode on the fresh plugin tree the exit
code matches validity. -/
theorem C8_exit_zero_iff_valid_witness :
    ((Setup.mainRun validateArgs true freshPluginTree).1 = 0 ↔
      ((Setup.mainRun validateArgs true freshPluginTree).2).is_valid = true) :=
  C8_exit_zero_iff_valid_in_flag_modes validateArgs freshPluginTree rfl
